import Mathlib

/-!
Shallow embedding of the ChromaSnake game-tick and attempt-progression
engine.  The definitions below are translated from the final variant of the
Game component (the one with the flat 10-point food award and the disabled
speed reduction); randomness (new food position and colour) is passed in as
an explicit oracle argument, and the `window.ReactNativeWebView.postMessage`
side effects are modelled as a list of emitted messages returned alongside
the new state.
-/

namespace ChromaSnake

/-- A grid cell coordinate, as in the source's `{x, y}` objects.  JavaScript
numbers are modelled as `Int` since the pre-wrap candidate head can be -1. -/
structure Pos where
  x : Int
  y : Int
deriving DecidableEq, Repr

/-- The palette of the `COLORS` constant. -/
inductive Color where
  | RED | ORANGE | YELLOW | GREEN | BLUE | GREY | BLACK
deriving DecidableEq, Repr

/-- A food item `{x, y, color}`. -/
structure Food where
  x : Int
  y : Int
  color : Color
deriving DecidableEq, Repr

/-- The four movement directions. -/
inductive Direction where
  | UP | DOWN | LEFT | RIGHT
deriving DecidableEq, Repr

/-- The `DIRECTIONS` table of unit vectors. -/
def dirVec : Direction → Pos
  | .UP => ⟨0, -1⟩
  | .DOWN => ⟨0, 1⟩
  | .LEFT => ⟨-1, 0⟩
  | .RIGHT => ⟨1, 0⟩

/-- The `opposites` table used in `handleGesture`. -/
def opposites : Direction → Direction
  | .UP => .DOWN
  | .DOWN => .UP
  | .LEFT => .RIGHT
  | .RIGHT => .LEFT

/-- The two sequential boundary checks of `moveSnake`:
`if (v < 0) v = bound - 1; if (v >= bound) v = 0;`. -/
def wrapCoord (bound v : Int) : Int :=
  let v1 := if v < 0 then bound - 1 else v
  if bound ≤ v1 then 0 else v1

/-- The component state held in the `gameState` React state (the fields of
`initialState`).  Scores and speed are natural numbers: every value the code
stores in them is a non-negative integer. -/
structure GameState where
  snake : List Pos
  food : Food
  direction : Direction
  speed : Nat
  score : Nat
  gameOver : Bool
  snakeColor : Color
  showRules : Bool
  isPractice : Bool
  practiceAttemptsLeft : Nat
  realAttemptsLeft : Nat
  realScores : List Nat
  currentAttemptNumber : Nat
deriving DecidableEq, Repr

/-- The source's `initialState` object. -/
def initialState : GameState where
  snake := [⟨5, 5⟩, ⟨4, 5⟩, ⟨3, 5⟩]
  food := ⟨10, 10, .RED⟩
  direction := .RIGHT
  speed := 200
  score := 0
  gameOver := false
  snakeColor := .RED
  showRules := true
  isPractice := true
  practiceAttemptsLeft := 3
  realAttemptsLeft := 3
  realScores := [0, 0, 0]
  currentAttemptNumber := 0

/-- The `ScoreTracker` class fields. -/
structure ScoreTracker where
  scores : List Nat
  currentScore : Nat
  currentAttempt : Nat
  foodEatenCount : Nat
deriving DecidableEq, Repr

/-- Source: `new ScoreTracker()`. -/
def ScoreTracker.init : ScoreTracker := ⟨[0, 0, 0], 0, 0, 0⟩

/-- Source `incrementFoodEaten()`: bumps the food counter and returns it. -/
def ScoreTracker.incrementFoodEaten (t : ScoreTracker) : ScoreTracker × Nat :=
  (⟨t.scores, t.currentScore, t.currentAttempt, t.foodEatenCount + 1⟩,
   t.foodEatenCount + 1)

/-- Source `incrementScore(points)`: adds `points` to the running score and returns
the new value. -/
def ScoreTracker.incrementScore (t : ScoreTracker) (points : Nat) :
    ScoreTracker × Nat :=
  (⟨t.scores, t.currentScore + points, t.currentAttempt, t.foodEatenCount⟩,
   t.currentScore + points)

/-- Source `startNewAttempt(attemptNumber, previousScores?)`: optionally seeds the
3-slot record from `previousScores`, then zeroes the per-attempt counters. -/
def ScoreTracker.startNewAttempt (t : ScoreTracker) (attemptNumber : Nat)
    (previousScores : Option (List Nat)) : ScoreTracker :=
  let sc := match previousScores with
    | some ps => if ps.length = 3 then ps else t.scores
    | none => t.scores
  ⟨sc, 0, attemptNumber, 0⟩

/-- Source `finalizeAttempt()`: writes the running score into the slot of the
current attempt unless that would overwrite a non-zero slot with zero;
returns the updated tracker together with the record and the running
score. -/
def ScoreTracker.finalizeAttempt (t : ScoreTracker) :
    ScoreTracker × (List Nat × Nat) :=
  let sc :=
    if 0 < t.currentAttempt ∧ t.currentAttempt ≤ 3 then
      if 0 < t.currentScore ∨ t.scores.getD (t.currentAttempt - 1) 0 = 0 then
        t.scores.set (t.currentAttempt - 1) t.currentScore
      else t.scores
    else t.scores
  (⟨sc, t.currentScore, t.currentAttempt, t.foodEatenCount⟩,
   (sc, t.currentScore))

/-- Source: `reset()`. -/
def ScoreTracker.reset (_ : ScoreTracker) : ScoreTracker := ⟨[0, 0, 0], 0, 0, 0⟩

/-- Source `calculatePointsForFood(food, snakeLength)`: the final scoring policy
simply returns 10 points per food item. -/
def calculatePointsForFood (_ : Food) (_ : Nat) : Nat := 10

/-- Everything the component closes over: the `gameState` React state, the
in-memory `highScore` state, the `scoreTracker`, `latestScores` and
`expectedScore` refs, and the AsyncStorage `highScore` key (`none` when the
key is absent). -/
structure AppState where
  gameState : GameState
  highScore : Nat
  tracker : ScoreTracker
  latestScores : List Nat
  expectedScore : Nat
  storedHighScore : Option Nat
deriving DecidableEq, Repr

/-- The `attemptScore` message payload. -/
structure AttemptScoreMsg where
  attemptNumber : Int
  score : Nat
  attemptsLeft : Nat
  allScores : List Nat
  isHighScore : Bool
deriving DecidableEq, Repr

/-- The `finalScores` message payload; `attempt1..3` are the fields of its
`attemptScores` object, and the two high-score fields are those of its
`allHighScores` object. -/
structure FinalScoresMsg where
  scores : List Nat
  isComplete : Bool
  highestScore : Nat
  attempt1 : Nat
  attempt2 : Nat
  attempt3 : Nat
  sessionHighScore : Nat
  overallHighScore : Nat
deriving DecidableEq, Repr

/-- A message posted to the host shell. -/
inductive HostMsg where
  | attemptScore (m : AttemptScoreMsg)
  | finalScores (m : FinalScoresMsg)
deriving DecidableEq, Repr

/-- Recognises `attemptScore` messages. -/
def isAttemptScoreMsg : HostMsg → Bool
  | .attemptScore _ => true
  | .finalScores _ => false

/-- Recognises `finalScores` messages. -/
def isFinalScoresMsg : HostMsg → Bool
  | .attemptScore _ => false
  | .finalScores _ => true

/-- The score-record merge loop of `handleGameOver`:
`for (i = 0..2) if (i !== attemptNumber-1 && latestScores[i] > 0)
currentScores[i] = latestScores[i]`. -/
def mergeLatest (attemptNumber : Int) (latest current : List Nat) : List Nat :=
  (List.range 3).foldl
    (fun acc (i : Nat) =>
      if (i : Int) ≠ attemptNumber - 1 ∧ 0 < latest.getD i 0 then
        acc.set i (latest.getD i 0)
      else acc)
    current

/-- Source: `const currentAttemptNumber = 3 - (gameState.realAttemptsLeft - 1)`. -/
def attemptNumberOf (app : AppState) : Int :=
  3 - ((app.gameState.realAttemptsLeft : Int) - 1)

/-- Source: `const scoreToSend = gameStateScore > 0 ? gameStateScore :
trackerScore`. -/
def scoreToSendOf (app : AppState) : Nat :=
  if 0 < app.gameState.score then app.gameState.score else app.tracker.currentScore

/-- The rebuilt 3-slot record of `handleGameOver`: a copy of the tracker's
record, merged with the positive entries of `latestScores` at the other
slots, with this attempt's score written into its own slot. -/
def realGameOverScores (app : AppState) : List Nat :=
  let n := attemptNumberOf app
  let merged := mergeLatest n app.latestScores app.tracker.scores
  if 0 < n ∧ n ≤ 3 then merged.set (n - 1).toNat (scoreToSendOf app) else merged

/-- Source `handleGameOver()` (the success path of its try block), with the two
`postMessage` calls modelled as emitted messages.  In the practice phase it
only raises the `gameOver` flag; in the real phase it computes the attempt
number from `realAttemptsLeft`, rebuilds the 3-slot record, finalizes the
tracker, stores the record into `latestScores` and `realScores`, and emits
an `attemptScore` message, plus a `finalScores` message when
`realAttemptsLeft <= 1`.  `Math.max(...)` over the (non-negative) sanitized
scores is `List.foldl max 0`. -/
def handleGameOver (app : AppState) : AppState × List HostMsg :=
  let g := app.gameState
  if g.isPractice then
    ({ app with gameState := { g with gameOver := true } }, [])
  else
    let scoreToSend := scoreToSendOf app
    let tracker := (app.tracker.finalizeAttempt).1
    let scoresToUse := realGameOverScores app
    let attemptMsg : AttemptScoreMsg :=
      { attemptNumber := attemptNumberOf app
        score := scoreToSend
        attemptsLeft := g.realAttemptsLeft - 1
        allScores := scoresToUse
        isHighScore := decide (app.highScore < scoreToSend) }
    let finalMsgs : List HostMsg :=
      if g.realAttemptsLeft ≤ 1 then
        let sanitizedScores := scoresToUse
        let highestScore := sanitizedScores.foldl max 0
        [HostMsg.finalScores
          { scores := sanitizedScores
            isComplete := true
            highestScore := highestScore
            attempt1 := sanitizedScores.getD 0 0
            attempt2 := sanitizedScores.getD 1 0
            attempt3 := sanitizedScores.getD 2 0
            sessionHighScore := highestScore
            overallHighScore := app.highScore }]
      else []
    ({ app with
        tracker := tracker
        latestScores := scoresToUse
        gameState := { g with gameOver := true, realScores := scoresToUse } },
      HostMsg.attemptScore attemptMsg :: finalMsgs)

/-- The candidate head of `moveSnake`: current head plus the direction unit
vector, wrapped on both axes. -/
def candidateHead (W H : Int) (g : GameState) : Pos :=
  let head0 := g.snake.headD ⟨0, 0⟩
  let d := dirVec g.direction
  ⟨wrapCoord W (head0.x + d.x), wrapCoord H (head0.y + d.y)⟩

/-- The collision condition of `moveSnake`: the candidate head coincides
with an obstacle cell or a cell of the (full, pre-move) snake body. -/
def hitsObstacleOrSelf (obstacles : List Pos) (g : GameState) (head : Pos) : Bool :=
  obstacles.any (fun obs => obs.x == head.x && obs.y == head.y) ||
  g.snake.any (fun seg => seg.x == head.x && seg.y == head.y)

/-- The food condition of `moveSnake`: the new head sits on the food cell. -/
def eatsFood (g : GameState) (head : Pos) : Bool :=
  head.x == g.food.x && head.y == g.food.y

/-- Source `moveSnake()` for one tick.  `W`/`H` are `GRID_WIDTH`/`GRID_HEIGHT`,
`obstacles` is the obstacle list the component closes over, and `newFood`
is the random food (`getRandomPosition()` plus random colour) drawn when
the current food is eaten.  On collision the updater returns `prevState`
unchanged and `handleGameOver()` runs; otherwise the new head is pushed,
and either the food is consumed (score, speed, colour, food update; no tail
drop) or the tail is popped. -/
def moveSnake (W H : Int) (obstacles : List Pos) (newFood : Food)
    (app : AppState) : AppState × List HostMsg :=
  let g := app.gameState
  let head := candidateHead W H g
  if hitsObstacleOrSelf obstacles g head then
    handleGameOver app
  else
    let newSnake := head :: g.snake
    if eatsFood g head then
      let pointsEarned := calculatePointsForFood g.food newSnake.length
      let expected :=
        if g.isPractice then app.expectedScore else app.expectedScore + pointsEarned
      let scored :=
        if g.isPractice then (app.tracker, g.score + pointsEarned)
        else app.tracker.incrementScore pointsEarned
      let newScore := scored.2
      let tracker := (scored.1.incrementFoodEaten).1
      let speedReduction := 0
      let newSpeed := max 50 (g.speed - speedReduction)
      ({ app with
          expectedScore := expected
          tracker := tracker
          gameState := { g with
            snake := newSnake
            score := newScore
            speed := newSpeed
            snakeColor := g.food.color
            food := newFood } }, [])
    else
      ({ app with gameState := { g with snake := newSnake.dropLast } }, [])

/-- Source `handleGesture(direction)`: the requested direction is dropped when the
current direction is its opposite, and stored otherwise. -/
def handleGesture (s : GameState) (direction : Direction) : GameState :=
  if s.direction = opposites direction then s
  else { s with direction := direction }

/-- Source `saveHighScore(score)` (success path): persists and adopts `score` only
when it strictly exceeds the in-memory high score. -/
def saveHighScore (app : AppState) (score : Nat) : AppState :=
  if app.highScore < score then
    { app with storedHighScore := some score, highScore := score }
  else app

/-- Source `resetGame()`: the four branches of the attempt-progression switch. -/
def resetGame (app : AppState) : AppState :=
  let prev := app.gameState
  if prev.isPractice ∧ prev.practiceAttemptsLeft ≤ 1 then
    { app with
        tracker := app.tracker.reset
        latestScores := [0, 0, 0]
        expectedScore := 0
        gameState := { initialState with
          showRules := false
          isPractice := false
          practiceAttemptsLeft := 0
          realAttemptsLeft := 3
          realScores := [0, 0, 0]
          currentAttemptNumber := 1 } }
  else if ¬prev.isPractice ∧ prev.realAttemptsLeft ≤ 1 then
    { app with
        tracker := app.tracker.reset
        latestScores := [0, 0, 0]
        expectedScore := 0
        gameState := initialState }
  else if ¬prev.isPractice then
    let nextAttemptNumber := prev.currentAttemptNumber + 1
    { app with
        tracker := app.tracker.startNewAttempt nextAttemptNumber (some app.latestScores)
        gameState := { initialState with
          showRules := false
          isPractice := false
          practiceAttemptsLeft := 0
          realAttemptsLeft := prev.realAttemptsLeft - 1
          realScores := app.latestScores
          currentAttemptNumber := nextAttemptNumber } }
  else
    { app with
        gameState := { initialState with
          showRules := false
          isPractice := true
          practiceAttemptsLeft := prev.practiceAttemptsLeft - 1
          realAttemptsLeft := 3
          realScores := [0, 0, 0]
          currentAttemptNumber := 0 } }

/-! ### Sample states used to instantiate the theorems -/

/-- A practice-phase component state right after mounting. -/
def samplePracticeApp : AppState where
  gameState := initialState
  highScore := 0
  tracker := ScoreTracker.init
  latestScores := [0, 0, 0]
  expectedScore := 0
  storedHighScore := none

/-- A real-phase state during the first real attempt, two foods already
eaten, with the food one cell to the right of the head. -/
def sampleEatApp : AppState where
  gameState := { initialState with
    showRules := false
    isPractice := false
    practiceAttemptsLeft := 0
    realAttemptsLeft := 3
    currentAttemptNumber := 1
    food := ⟨6, 5, .GREEN⟩
    score := 20 }
  highScore := 0
  tracker := ⟨[0, 0, 0], 20, 1, 2⟩
  latestScores := [0, 0, 0]
  expectedScore := 20
  storedHighScore := none

/-- A state about to collide with its own tail: the snake has length 2 and
moves LEFT into the cell of its last segment. -/
def sampleTailApp : AppState where
  gameState := { initialState with snake := [⟨5, 5⟩, ⟨4, 5⟩], direction := .LEFT }
  highScore := 0
  tracker := ScoreTracker.init
  latestScores := [0, 0, 0]
  expectedScore := 0
  storedHighScore := none

/-- A real-phase state at the end of the second real attempt: attempt 1
scored 20, the current attempt scored 30. -/
def sampleSecondAttemptApp : AppState where
  gameState := { initialState with
    showRules := false
    isPractice := false
    practiceAttemptsLeft := 0
    realAttemptsLeft := 2
    currentAttemptNumber := 2
    score := 30 }
  highScore := 0
  tracker := ⟨[20, 0, 0], 30, 2, 3⟩
  latestScores := [20, 0, 0]
  expectedScore := 30
  storedHighScore := none

/-- A real-phase state at the end of the third (final) real attempt:
attempt 1 scored 20, attempts 2 and 3 scored 0 and 30. -/
def sampleFinalApp : AppState where
  gameState := { initialState with
    showRules := false
    isPractice := false
    practiceAttemptsLeft := 0
    realAttemptsLeft := 1
    currentAttemptNumber := 3
    score := 30 }
  highScore := 50
  tracker := ⟨[20, 0, 0], 30, 3, 3⟩
  latestScores := [20, 0, 0]
  expectedScore := 30
  storedHighScore := none

/-- The `finalScores` message emitted from `sampleFinalApp`. -/
def sampleFinalMsg : FinalScoresMsg where
  scores := [20, 0, 30]
  isComplete := true
  highestScore := 30
  attempt1 := 20
  attempt2 := 0
  attempt3 := 30
  sessionHighScore := 30
  overallHighScore := 50

/-! ### Helper lemmas -/

/-- The index list of the merge loop. -/
theorem range_three : List.range 3 = [0, 1, 2] := by decide

/-- The merge loop never changes the length of the record. -/
theorem mergeLatest_length (n : Int) (latest cur : List Nat) :
    (mergeLatest n latest cur).length = cur.length := by
  have step : ∀ (l : List Nat) (c : List Nat),
      (l.foldl (fun acc (i : Nat) =>
        if (i : Int) ≠ n - 1 ∧ 0 < latest.getD i 0 then
          acc.set i (latest.getD i 0)
        else acc) c).length = c.length := by
    intro l
    induction l with
    | nil => intro c; rfl
    | cons x xs ih =>
      intro c
      rw [List.foldl_cons, ih]
      split_ifs <;> simp [List.length_set]
  exact step _ _

/-- The rebuilt record keeps the tracker record's length. -/
theorem realGameOverScores_length (app : AppState) :
    (realGameOverScores app).length = app.tracker.scores.length := by
  simp only [realGameOverScores]
  split_ifs <;> simp [List.length_set, mergeLatest_length]

/-- Evaluation of `Math.max` over a 3-element list of naturals. -/
theorem foldl_max_three (l : List Nat) (h : l.length = 3) :
    l.foldl max 0 = max (l.getD 0 0) (max (l.getD 1 0) (l.getD 2 0)) := by
  obtain ⟨a, b, c, rfl⟩ := List.length_eq_three.mp h
  simp [List.foldl]
  omega

/-- Under the invariants that hold when a real attempt ends (tracker record
and `latestScores` agree, game-state score and tracker score agree, attempt
`k` in progress), the rebuilt record is exactly the old record with slot
`k` overwritten by the attempt's final score. -/
theorem realGameOverScores_set (app : AppState) (k : Nat)
    (hk1 : 1 ≤ k) (hk3 : k ≤ 3)
    (hleft : app.gameState.realAttemptsLeft = 4 - k)
    (hlen : app.latestScores.length = 3)
    (htr : app.tracker.scores = app.latestScores)
    (hsc : app.gameState.score = app.tracker.currentScore) :
    realGameOverScores app
      = app.latestScores.set (k - 1) app.gameState.score := by
  obtain ⟨a, b, c, hL⟩ := List.length_eq_three.mp hlen
  rw [hL] at htr
  rw [hL]
  interval_cases k <;>
    · norm_num at hleft
      simp [realGameOverScores, attemptNumberOf, scoreToSendOf, mergeLatest,
        range_three, hleft, hL, htr, ← hsc]

/-- The function `handleGameOver` raises the `gameOver` flag and touches no engine field
(snake, food, score, speed, direction) and neither high-score value. -/
theorem handleGameOver_fields (app : AppState) :
    (handleGameOver app).1.gameState.snake = app.gameState.snake ∧
    (handleGameOver app).1.gameState.food = app.gameState.food ∧
    (handleGameOver app).1.gameState.score = app.gameState.score ∧
    (handleGameOver app).1.gameState.speed = app.gameState.speed ∧
    (handleGameOver app).1.gameState.direction = app.gameState.direction ∧
    (handleGameOver app).1.gameState.gameOver = true ∧
    (handleGameOver app).1.highScore = app.highScore ∧
    (handleGameOver app).1.storedHighScore = app.storedHighScore := by
  unfold handleGameOver
  cases hp : app.gameState.isPractice <;> simp [hp]

/-! ### Claim theorems -/

/-- Claim C8: for every pre-tick state on a grid with positive dimensions,
the wrapped candidate head of the tick satisfies
`0 ≤ x < GRID_WIDTH` and `0 ≤ y < GRID_HEIGHT`. -/
theorem C8_post_wrap_bounds (W H : Int) (g : GameState)
    (hW : 1 ≤ W) (hH : 1 ≤ H) :
    0 ≤ (candidateHead W H g).x ∧ (candidateHead W H g).x < W ∧
    0 ≤ (candidateHead W H g).y ∧ (candidateHead W H g).y < H := by
  have key : ∀ b v : Int, 1 ≤ b → 0 ≤ wrapCoord b v ∧ wrapCoord b v < b := by
    intro b v hb
    simp only [wrapCoord]
    split_ifs <;> omega
  exact ⟨(key W _ hW).1, (key W _ hW).2, (key H _ hH).1, (key H _ hH).2⟩

/-- Witness for C8 at a concrete grid and state. -/
theorem C8_post_wrap_bounds_witness :
    0 ≤ (candidateHead 20 20 initialState).x ∧
    (candidateHead 20 20 initialState).x < 20 ∧
    0 ≤ (candidateHead 20 20 initialState).y ∧
    (candidateHead 20 20 initialState).y < 20 :=
  C8_post_wrap_bounds 20 20 initialState (by decide) (by decide)

/-- Claim C9: a requested direction that is the exact opposite of the
current one leaves the state unchanged; any other request replaces the
stored direction. -/
theorem C9_opposite_direction_guard (s : GameState) (r : Direction) :
    (r = opposites s.direction → handleGesture s r = s) ∧
    (r ≠ opposites s.direction → (handleGesture s r).direction = r) := by
  constructor
  · intro h
    have hd : s.direction = opposites r := by
      cases hc : s.direction <;> cases hr : r <;> simp_all [opposites]
    simp [handleGesture, hd]
  · intro h
    have hd : s.direction ≠ opposites r := by
      cases hc : s.direction <;> cases hr : r <;> simp_all [opposites]
    simp [handleGesture, hd]

/-- Witness for C9: from RIGHT, the opposite request LEFT is a no-op and
the perpendicular request UP is accepted. -/
theorem C9_opposite_direction_guard_witness :
    handleGesture initialState .LEFT = initialState ∧
    (handleGesture initialState .UP).direction = .UP :=
  ⟨(C9_opposite_direction_guard initialState .LEFT).1 (by decide),
   (C9_opposite_direction_guard initialState .UP).2 (by decide)⟩

/-- Claim C6: when the wrapped candidate head hits an obstacle or the snake
body, the tick signals game-over and leaves snake, food, score, speed and
direction exactly as they were: the fatal head is never written. -/
theorem C6_collision_freezes_state (W H : Int) (obstacles : List Pos)
    (newFood : Food) (app : AppState)
    (_hgo : app.gameState.gameOver = false)
    (hcol : hitsObstacleOrSelf obstacles app.gameState
      (candidateHead W H app.gameState) = true) :
    (moveSnake W H obstacles newFood app).1.gameState.snake = app.gameState.snake ∧
    (moveSnake W H obstacles newFood app).1.gameState.food = app.gameState.food ∧
    (moveSnake W H obstacles newFood app).1.gameState.score = app.gameState.score ∧
    (moveSnake W H obstacles newFood app).1.gameState.speed = app.gameState.speed ∧
    (moveSnake W H obstacles newFood app).1.gameState.direction
      = app.gameState.direction ∧
    (moveSnake W H obstacles newFood app).1.gameState.gameOver = true := by
  have hm : moveSnake W H obstacles newFood app = handleGameOver app := by
    unfold moveSnake
    simp [hcol]
  rw [hm]
  have h := handleGameOver_fields app
  exact ⟨h.1, h.2.1, h.2.2.1, h.2.2.2.1, h.2.2.2.2.1, h.2.2.2.2.2.1⟩

/-- Witness for C6: the initial practice state driving RIGHT into an
obstacle at (6,5). -/
theorem C6_collision_freezes_state_witness :
    (moveSnake 20 20 [⟨6, 5⟩] ⟨0, 0, .RED⟩ samplePracticeApp).1.gameState.snake
      = samplePracticeApp.gameState.snake ∧
    (moveSnake 20 20 [⟨6, 5⟩] ⟨0, 0, .RED⟩
      samplePracticeApp).1.gameState.gameOver = true := by
  have h := C6_collision_freezes_state 20 20 [⟨6, 5⟩] ⟨0, 0, .RED⟩
    samplePracticeApp (by decide) (by decide)
  exact ⟨h.1, h.2.2.2.2.2⟩

/-- Claim C10: steering the head into the cell of the snake's last tail
segment is fatal: the collision check runs against the full pre-move body,
so even though a non-eating tick would vacate that cell, the tick takes the
game-over branch and the body is left unchanged. -/
theorem C10_tail_cell_is_fatal (W H : Int) (obstacles : List Pos)
    (newFood : Food) (app : AppState)
    (hne : app.gameState.snake ≠ [])
    (hlast : candidateHead W H app.gameState = app.gameState.snake.getLast hne) :
    moveSnake W H obstacles newFood app = handleGameOver app ∧
    (moveSnake W H obstacles newFood app).1.gameState.snake = app.gameState.snake ∧
    (moveSnake W H obstacles newFood app).1.gameState.gameOver = true := by
  have hcol : hitsObstacleOrSelf obstacles app.gameState
      (candidateHead W H app.gameState) = true := by
    unfold hitsObstacleOrSelf
    refine Bool.or_eq_true _ _ |>.mpr (Or.inr ?_)
    rw [List.any_eq_true]
    exact ⟨_, List.getLast_mem hne, by rw [hlast]; simp⟩
  have hm : moveSnake W H obstacles newFood app = handleGameOver app := by
    unfold moveSnake
    simp [hcol]
  have h := handleGameOver_fields app
  exact ⟨hm, by rw [hm]; exact h.1, by rw [hm]; exact h.2.2.2.2.2.1⟩

/-- Witness for C10: a length-2 snake at [(5,5),(4,5)] moving LEFT into its
own tail cell (4,5) dies without eating. -/
theorem C10_tail_cell_is_fatal_witness :
    (moveSnake 20 20 [] ⟨0, 0, .RED⟩ sampleTailApp).1.gameState.snake
      = sampleTailApp.gameState.snake ∧
    (moveSnake 20 20 [] ⟨0, 0, .RED⟩ sampleTailApp).1.gameState.gameOver = true := by
  have h := C10_tail_cell_is_fatal 20 20 [] ⟨0, 0, .RED⟩ sampleTailApp
    (by decide) (by decide)
  exact ⟨h.2.1, h.2.2⟩

/-- Claim C7: on an eating tick the new speed is `max 50 (speed - 0)` (the
speed-reduction term is zero and 50 is the clamp floor), so whenever the
current speed is at least the floor the speed does not change at all. -/
theorem C7_speed_never_changes (W H : Int) (obstacles : List Pos)
    (newFood : Food) (app : AppState)
    (hcol : hitsObstacleOrSelf obstacles app.gameState
      (candidateHead W H app.gameState) = false)
    (heat : eatsFood app.gameState (candidateHead W H app.gameState) = true) :
    (moveSnake W H obstacles newFood app).1.gameState.speed
      = max 50 (app.gameState.speed - 0) ∧
    (50 ≤ app.gameState.speed →
      (moveSnake W H obstacles newFood app).1.gameState.speed
        = app.gameState.speed) := by
  have hm : (moveSnake W H obstacles newFood app).1.gameState.speed
      = max 50 (app.gameState.speed - 0) := by
    unfold moveSnake
    simp [hcol, heat]
  refine ⟨hm, fun hs => ?_⟩
  rw [hm]
  omega

/-- Witness for C7 on an eating tick at speed 200. -/
theorem C7_speed_never_changes_witness :
    (moveSnake 20 20 [] ⟨0, 0, .RED⟩ sampleEatApp).1.gameState.speed
      = sampleEatApp.gameState.speed :=
  (C7_speed_never_changes 20 20 [] ⟨0, 0, .RED⟩ sampleEatApp
    (by decide) (by decide)).2 (by decide)

/-- Claim C1: a tick on which the head lands on the food adds exactly 10 to
the score (in both phases, given the real-phase invariant that the game
state score and the tracker score agree); every other tick, including a
fatal one, leaves the score unchanged; and every branch of `resetGame`
starts the next attempt with score 0. -/
theorem C1_flat_ten_point_scoring (W H : Int) (obstacles : List Pos)
    (newFood : Food) (app : AppState)
    (hsync : app.gameState.isPractice = false →
      app.gameState.score = app.tracker.currentScore) :
    (hitsObstacleOrSelf obstacles app.gameState
        (candidateHead W H app.gameState) = false →
      ((eatsFood app.gameState (candidateHead W H app.gameState) = true →
        (moveSnake W H obstacles newFood app).1.gameState.score
          = app.gameState.score + 10) ∧
       (eatsFood app.gameState (candidateHead W H app.gameState) = false →
        (moveSnake W H obstacles newFood app).1.gameState.score
          = app.gameState.score))) ∧
    (hitsObstacleOrSelf obstacles app.gameState
        (candidateHead W H app.gameState) = true →
      (moveSnake W H obstacles newFood app).1.gameState.score
        = app.gameState.score) ∧
    app.gameState.score ≤ (moveSnake W H obstacles newFood app).1.gameState.score ∧
    (∀ a : AppState, (resetGame a).gameState.score = 0) := by
  have heatcase : hitsObstacleOrSelf obstacles app.gameState
      (candidateHead W H app.gameState) = false →
      eatsFood app.gameState (candidateHead W H app.gameState) = true →
      (moveSnake W H obstacles newFood app).1.gameState.score
        = app.gameState.score + 10 := by
    intro hcol heat
    unfold moveSnake
    cases hp : app.gameState.isPractice
    · have hs := hsync hp
      simp [hcol, heat, hp, ScoreTracker.incrementScore, calculatePointsForFood, hs]
    · simp [hcol, heat, hp, calculatePointsForFood]
  have hnoeat : hitsObstacleOrSelf obstacles app.gameState
      (candidateHead W H app.gameState) = false →
      eatsFood app.gameState (candidateHead W H app.gameState) = false →
      (moveSnake W H obstacles newFood app).1.gameState.score
        = app.gameState.score := by
    intro hcol heat
    unfold moveSnake
    simp [hcol, heat]
  have hcolcase : hitsObstacleOrSelf obstacles app.gameState
      (candidateHead W H app.gameState) = true →
      (moveSnake W H obstacles newFood app).1.gameState.score
        = app.gameState.score := by
    intro hcol
    have hm : moveSnake W H obstacles newFood app = handleGameOver app := by
      unfold moveSnake
      simp [hcol]
    rw [hm]
    exact (handleGameOver_fields app).2.2.1
  have hreset : ∀ a : AppState, (resetGame a).gameState.score = 0 := by
    intro a
    simp only [resetGame]
    split_ifs <;> rfl
  refine ⟨fun hcol => ⟨heatcase hcol, hnoeat hcol⟩, hcolcase, ?_, hreset⟩
  cases hcol : hitsObstacleOrSelf obstacles app.gameState
      (candidateHead W H app.gameState)
  · cases heat : eatsFood app.gameState (candidateHead W H app.gameState)
    · rw [hnoeat hcol heat]
    · rw [heatcase hcol heat]
      omega
  · rw [hcolcase hcol]

/-- Witness for C1: in the first real attempt with score 20, eating the
food at (6,5) yields score 30. -/
theorem C1_flat_ten_point_scoring_witness :
    (moveSnake 20 20 [] ⟨0, 0, .RED⟩ sampleEatApp).1.gameState.score
      = sampleEatApp.gameState.score + 10 :=
  ((C1_flat_ten_point_scoring 20 20 [] ⟨0, 0, .RED⟩ sampleEatApp
    (by decide)).1 (by decide)).1 (by decide)

/-- Claim C2: when real attempt `k` ends (so `realAttemptsLeft = 4 - k` and
the usual bookkeeping invariants hold), the 3-slot record after
`handleGameOver` has slot `k` equal to the attempt's final score, every
other slot equal to its previous value, and `realScores` mirrors it. -/
theorem C2_record_slot_update (app : AppState) (k : Nat)
    (hp : app.gameState.isPractice = false)
    (hk1 : 1 ≤ k) (hk3 : k ≤ 3)
    (hleft : app.gameState.realAttemptsLeft = 4 - k)
    (hlen : app.latestScores.length = 3)
    (htr : app.tracker.scores = app.latestScores)
    (hsc : app.gameState.score = app.tracker.currentScore) :
    (handleGameOver app).1.latestScores.getD (k - 1) 0 = app.gameState.score ∧
    (∀ i, i < 3 → i ≠ k - 1 →
      (handleGameOver app).1.latestScores.getD i 0
        = app.latestScores.getD i 0) ∧
    (handleGameOver app).1.gameState.realScores
      = (handleGameOver app).1.latestScores := by
  have hnew : (handleGameOver app).1.latestScores
      = app.latestScores.set (k - 1) app.gameState.score := by
    unfold handleGameOver
    simp only [hp, Bool.false_eq_true, if_false]
    exact realGameOverScores_set app k hk1 hk3 hleft hlen htr hsc
  have hreal : (handleGameOver app).1.gameState.realScores
      = (handleGameOver app).1.latestScores := by
    unfold handleGameOver
    simp [hp]
  obtain ⟨a, b, c, hL⟩ := List.length_eq_three.mp hlen
  refine ⟨?_, ?_, hreal⟩
  · rw [hnew, hL]
    interval_cases k <;> simp
  · intro i hi hik
    rw [hnew, hL]
    interval_cases k <;> interval_cases i <;> simp_all [hL]

/-- Witness for C2 at the end of real attempt 2: slot 2 becomes 30 while
slot 1 keeps its value 20. -/
theorem C2_record_slot_update_witness :
    (handleGameOver sampleSecondAttemptApp).1.latestScores.getD (2 - 1) 0
      = sampleSecondAttemptApp.gameState.score :=
  (C2_record_slot_update sampleSecondAttemptApp 2 (by decide) (by decide)
    (by decide) (by decide) (by decide) (by decide) (by decide)).1

/-- Claim C4: a practice game-over emits no message; a real game-over emits
exactly one `attemptScore` message, and a `finalScores` message exactly
when the attempt was the last one (`realAttemptsLeft <= 1`). -/
theorem C4_reports_only_in_real_phase (app : AppState) :
    (app.gameState.isPractice = true → (handleGameOver app).2 = []) ∧
    (app.gameState.isPractice = false →
      ((handleGameOver app).2.countP isAttemptScoreMsg = 1 ∧
       (handleGameOver app).2.countP isFinalScoresMsg
         = if app.gameState.realAttemptsLeft ≤ 1 then 1 else 0)) := by
  constructor
  · intro hp
    unfold handleGameOver
    simp [hp]
  · intro hp
    unfold handleGameOver
    by_cases hl : app.gameState.realAttemptsLeft ≤ 1 <;>
      simp [hp, hl, List.countP_cons, List.countP_nil,
        isAttemptScoreMsg, isFinalScoresMsg]

/-- Witness for C4 at the final real attempt: one message of each kind. -/
theorem C4_reports_only_in_real_phase_witness :
    (handleGameOver sampleFinalApp).2.countP isAttemptScoreMsg = 1 ∧
    (handleGameOver sampleFinalApp).2.countP isFinalScoresMsg
      = if sampleFinalApp.gameState.realAttemptsLeft ≤ 1 then 1 else 0 :=
  (C4_reports_only_in_real_phase sampleFinalApp).2 (by decide)

/-- Claim C5: any `finalScores` message emitted by `handleGameOver` carries
the just-rebuilt 3-slot record, its `highestScore` is the maximum of the
three recorded slots, and `attempt1..3` are exactly the three slots (with
`getD`'s default 0 for absent entries). -/
theorem C5_final_scores_contents (app : AppState) (f : FinalScoresMsg)
    (hlen : app.tracker.scores.length = 3)
    (hmem : HostMsg.finalScores f ∈ (handleGameOver app).2) :
    f.scores = (handleGameOver app).1.latestScores ∧
    f.highestScore
      = max (f.scores.getD 0 0) (max (f.scores.getD 1 0) (f.scores.getD 2 0)) ∧
    f.attempt1 = f.scores.getD 0 0 ∧
    f.attempt2 = f.scores.getD 1 0 ∧
    f.attempt3 = f.scores.getD 2 0 := by
  have hlen3 : (realGameOverScores app).length = 3 := by
    rw [realGameOverScores_length]; exact hlen
  unfold handleGameOver at hmem ⊢
  cases hp : app.gameState.isPractice
  · simp only [hp, Bool.false_eq_true, if_false] at hmem ⊢
    rw [List.mem_cons] at hmem
    rcases hmem with h | h
    · simp at h
    · by_cases hl : app.gameState.realAttemptsLeft ≤ 1
      · simp only [hl, if_true, List.mem_singleton] at h
        rw [HostMsg.finalScores.injEq] at h
        subst h
        refine ⟨rfl, ?_, rfl, rfl, rfl⟩
        exact foldl_max_three _ hlen3
      · simp [hl] at h
  · simp [hp] at hmem

/-- Witness for C5: the final attempt of `sampleFinalApp` emits the record
[20, 0, 30] whose maximum 30 is reported as `highestScore`. -/
theorem C5_final_scores_contents_witness :
    sampleFinalMsg.highestScore
      = max (sampleFinalMsg.scores.getD 0 0)
          (max (sampleFinalMsg.scores.getD 1 0) (sampleFinalMsg.scores.getD 2 0)) :=
  (C5_final_scores_contents sampleFinalApp sampleFinalMsg
    (by decide) (by decide)).2.1

/-- Claim C3 counterexample: a real game-over whose score 30 strictly
exceeds the high score 0, yet `handleGameOver` changes neither the
in-memory high score nor the persisted value: the compare-and-overwrite
never happens on game-over (`saveHighScore` has no caller). -/
theorem C3_no_high_score_update_on_game_over :
    sampleSecondAttemptApp.highScore < sampleSecondAttemptApp.gameState.score ∧
    (handleGameOver sampleSecondAttemptApp).1.highScore
      = sampleSecondAttemptApp.highScore ∧
    (handleGameOver sampleSecondAttemptApp).1.storedHighScore
      = sampleSecondAttemptApp.storedHighScore := by
  decide

/-- Claim C3 amended: `saveHighScore` itself compares the given score with
the in-memory high score and overwrites the persisted value and in-memory
value exactly when strictly greater; but the game-over handler never
invokes it, so on every game-over both values are unchanged. -/
theorem C3_save_high_score_semantics (app : AppState) (score : Nat) :
    (app.highScore < score →
      (saveHighScore app score).storedHighScore = some score ∧
      (saveHighScore app score).highScore = score) ∧
    (¬ app.highScore < score → saveHighScore app score = app) ∧
    (handleGameOver app).1.highScore = app.highScore ∧
    (handleGameOver app).1.storedHighScore = app.storedHighScore := by
  refine ⟨fun h => ?_, fun h => ?_, (handleGameOver_fields app).2.2.2.2.2.2⟩
  · simp [saveHighScore, h]
  · simp [saveHighScore, h]

/-- Witness for C3 (amended): saving 100 over high score 0 persists 100. -/
theorem C3_save_high_score_semantics_witness :
    (saveHighScore sampleSecondAttemptApp 100).storedHighScore = some 100 ∧
    (saveHighScore sampleSecondAttemptApp 100).highScore = 100 :=
  (C3_save_high_score_semantics sampleSecondAttemptApp 100).1 (by decide)

end ChromaSnake
